import Mathlib

/-!
Verification of the Pro_Scanner username-reconnaissance tool.

The development shallowly embeds the two source revisions of
`osint_tool.py`:

* the string primitives used by the content classifier (Python's `in`
  operator and ASCII `.lower()`, enough for the fixed ASCII indicator
  phrases the source checks);
* Python's `str.format` for a template with one positional argument
  (`pyFormat1`): the source calls `url_template.format(username)` outside
  its `try` block, so a template whose formatting fails raises past the
  probe; our model returns `Except.error` there.  Replacement fields other
  than a plain auto field or the manual field `0` (such as format specs)
  are conservatively rejected; no theorem below depends on those inputs;
* the classifier `is_username_found` in both revisions (they differ only
  in the final default: the earliest revision defaults to found, the later
  one to not-found);
* the probe `scan_site`, with the network modelled as a `NetOutcome`
  value: a response (status code, body text, parsed title and final URL
  after redirects — HTML parsing is delegated to an external parser in the
  source, so the title arrives as part of the response value), a timeout
  exception, or a transport-error exception;
* the SQLite cache (`get_cached_result`, `save_result`), with the table
  as a list of rows and `time.time()` timestamps abstracted to integer
  seconds (every compared quantity is order-theoretic, so only the
  ordering of timestamps matters);
* the orchestrator `run_scan`: partition into cached and to-probe,
  gather the probes (one raising probe fails the whole batch, as
  `asyncio.gather` propagates the exception), persist fresh results and
  aggregate the summary counts.
-/

set_option maxRecDepth 20000

/-- Does `pat` occur at the very start of `s`?  (Helper for Python's
`in` operator on strings.) -/
def startsWithList : List Char → List Char → Bool
  | [], _ => true
  | _ :: _, [] => false
  | a :: as, b :: bs => a == b && startsWithList as bs

/-- Does `pat` occur somewhere inside `s`?  This is Python's
`pat in s` on strings. -/
def occursIn (pat : List Char) : List Char → Bool
  | [] => pat.isEmpty
  | c :: rest => startsWithList pat (c :: rest) || occursIn pat rest

/-- Python's `pat in s` membership test on strings. -/
def strHas (s pat : String) : Bool :=
  occursIn pat.data s.data

/-- ASCII lower-casing of a string, character by character (Python's
`.lower()`; the indicator phrases compared against are all ASCII). -/
def lowerStr (s : String) : String :=
  String.mk (s.data.map Char.toLower)

/-- The negative phrases of `is_username_found` (`error_indicators` in the
source). -/
def error_indicators : List String :=
  ["not found", "does not exist", "404", "no such user",
   "user not found", "profile not found", "doesn\x27t exist"]

/-- The positive phrases of `is_username_found` (`success_indicators` in
the source). -/
def success_indicators : List String :=
  ["profile", "member", "user", "account", "posts",
   "followers", "following", "tweets", "repositories"]

/-- `any(error in html_content for error in error_indicators)`. -/
def hasErrorIndicator (body : String) : Bool :=
  error_indicators.any (fun e => strHas body e)

/-- `any(success in html_content for success in success_indicators)`. -/
def hasSuccessIndicator (body : String) : Bool :=
  success_indicators.any (fun s => strHas body s)

/-- The title check: `soup.title` exists and its lower-cased text contains
`"profile"` or `"user"`. -/
def titleHasSignal : Option String → Bool
  | some t => strHas (lowerStr t) "profile" || strHas (lowerStr t) "user"
  | none => false

/-- An HTTP response as the classifier sees it: status code, body text,
and the parsed `<title>` text (`none` when the document has no title
element).  The HTML parser is an external collaborator in the source, so
the title is part of the response value here. -/
structure Response where
  status_code : Nat
  text : String
  title : Option String
deriving DecidableEq

/-- `is_username_found` of the later revision (`src/src/osint_tool.py`):
status gate, negative phrases, positive phrases, title check, and a
default of `false` (pessimistic). -/
def is_username_found (resp : Response) : Bool :=
  if resp.status_code ≠ 200 then false
  else if hasErrorIndicator (lowerStr resp.text) then false
  else if hasSuccessIndicator (lowerStr resp.text) then true
  else if titleHasSignal resp.title then true
  else false

/-- `is_username_found` of the earliest revision (`src/osint_tool.py`):
identical except that the final default is `true` (optimistic).  (That
revision also receives the unused `site_data` argument, dropped here.) -/
def is_username_found_v1 (resp : Response) : Bool :=
  if resp.status_code ≠ 200 then false
  else if hasErrorIndicator (lowerStr resp.text) then false
  else if hasSuccessIndicator (lowerStr resp.text) then true
  else if titleHasSignal resp.title then true
  else true

/-- A status-200 response carrying no negative phrase, no positive phrase
and no title signal: the only region where the two classifier revisions
disagree. -/
def noSignalB (resp : Response) : Bool :=
  decide (resp.status_code = 200)
    && !hasErrorIndicator (lowerStr resp.text)
    && !hasSuccessIndicator (lowerStr resp.text)
    && !titleHasSignal resp.title

/-- Numbering mode of Python `str.format`: no field seen yet, automatic
numbering in use, or manual numbering in use. -/
inductive FmtMode
  | start
  | auto
  | manual
deriving DecidableEq

/-- Scanner state for `str.format`: plain text, just after `\x7b`, inside
a replacement field, or just after `\x7d`. -/
inductive FState
  | text
  | lbrace
  | field (acc : List Char)
  | rbrace
deriving DecidableEq

/-- One-pass model of Python's `str.format` with a single positional
argument `arg`.  Doubled braces are literals; an unmatched single brace is
a `ValueError`; the auto field `\x7b\x7d` may appear once (a second one is
an `IndexError`, there is only one argument); the manual field `\x7b0\x7d`
may repeat but may not be mixed with auto numbering (`ValueError`).  Any
other replacement field is rejected. -/
def pyFormat1Go (arg : List Char) : List Char → FState → FmtMode → Except String (List Char)
  | [], .text, _ => .ok []
  | [], .lbrace, _ => .error "Single left brace encountered in format string"
  | [], .field _, _ => .error "unmatched left brace in format string"
  | [], .rbrace, _ => .error "Single right brace encountered in format string"
  | c :: cs, .text, m =>
    if c = '\x7b' then pyFormat1Go arg cs .lbrace m
    else if c = '\x7d' then pyFormat1Go arg cs .rbrace m
    else (c :: ·) <$> pyFormat1Go arg cs .text m
  | c :: cs, .lbrace, m =>
    if c = '\x7b' then ('\x7b' :: ·) <$> pyFormat1Go arg cs .text m
    else if c = '\x7d' then
      match m with
      | .start => (arg ++ ·) <$> pyFormat1Go arg cs .text .auto
      | .auto => .error "Replacement index 1 out of range"
      | .manual => .error "cannot switch from manual to automatic field numbering"
    else pyFormat1Go arg cs (.field [c]) m
  | c :: cs, .field acc, m =>
    if c = '\x7d' then
      if acc = ['0'] then
        match m with
        | .auto => .error "cannot switch from automatic to manual field numbering"
        | _ => (arg ++ ·) <$> pyFormat1Go arg cs .text .manual
      else .error "unsupported replacement field"
    else if c = '\x7b' then .error "unexpected left brace in field name"
    else pyFormat1Go arg cs (.field (acc ++ [c])) m
  | c :: cs, .rbrace, m =>
    if c = '\x7d' then ('\x7d' :: ·) <$> pyFormat1Go arg cs .text m
    else .error "Single right brace encountered in format string"

/-- `tmpl.format(arg)` for one positional argument: `Except.error` models
the `ValueError`/`IndexError`/`KeyError` the Python built-in raises. -/
def pyFormat1 (tmpl arg : String) : Except String String :=
  (pyFormat1Go arg.data tmpl.data .text .start).map String.mk

/-- One platform entry of the sites configuration: the `url` key, absent
when the JSON object has no such key. -/
structure SiteData where
  url : Option String
deriving DecidableEq

/-- The per-platform scan result dictionary: site name, URL, status string
(`"FOUND"`, `"NOT FOUND"`, `"TIMEOUT"` or `"ERROR"`), HTTP status code
(0 when no response arrived), and elapsed seconds.  The same shape is
returned by a fresh probe and by a cache lookup. -/
structure ProbeResult where
  siteName : String
  url : String
  status : String
  httpCode : Nat
  responseTime : Int
deriving DecidableEq

/-- The behavior of the network for one probe: a response (with the final
URL after redirects and the measured elapsed time), an
`httpx.TimeoutException`, or an `httpx.RequestError`. -/
inductive NetOutcome
  | response (resp : Response) (finalUrl : String) (elapsed : Int)
  | timeout (elapsed : Int)
  | requestError (elapsed : Int)
deriving DecidableEq

/-- `Except.isOk`, kept local so that every proof can unfold it. -/
def isOkE {ε α : Type} : Except ε α → Bool
  | .ok _ => true
  | .error _ => false

/-- `scan_site`, parameterized by the classifier (the two source
revisions share everything except the classifier).  A falsy template
(absent key or empty string, the `if not url_template` guard) yields the
immediate ERROR result before any network activity.  The template is then
formatted **outside** the `try` block, so a formatting failure is an
uncaught exception (`Except.error`).  Inside the `try`, a response is
classified, and the two `except` clauses convert timeout and transport
failures into TIMEOUT/ERROR results carrying the originally requested
URL. -/
def scan_siteWith (classify : Response → Bool) (username siteName : String)
    (site_data : SiteData) (net : NetOutcome) : Except String ProbeResult :=
  match site_data.url with
  | none => .ok ⟨siteName, "N/A", "ERROR", 0, 0⟩
  | some tmpl =>
    if tmpl = "" then .ok ⟨siteName, "N/A", "ERROR", 0, 0⟩
    else
      match pyFormat1 tmpl username with
      | .error e => .error e
      | .ok full_url =>
        match net with
        | .response resp finalUrl elapsed =>
          .ok ⟨siteName, finalUrl,
               if classify resp then "FOUND" else "NOT FOUND",
               resp.status_code, elapsed⟩
        | .timeout elapsed => .ok ⟨siteName, full_url, "TIMEOUT", 0, elapsed⟩
        | .requestError elapsed => .ok ⟨siteName, full_url, "ERROR", 0, elapsed⟩

/-- `scan_site` of the later revision. -/
def scan_site : String → String → SiteData → NetOutcome → Except String ProbeResult :=
  scan_siteWith is_username_found

/-- `scan_site` of the earliest revision (optimistic classifier). -/
def scan_site_v1 : String → String → SiteData → NetOutcome → Except String ProbeResult :=
  scan_siteWith is_username_found_v1

/-- One row of the `results` table: columns `username`, `site_name`,
`url`, `status`, `http_code`, `response_time`, `timestamp`. -/
structure CacheRow where
  username : String
  siteName : String
  url : String
  status : String
  httpCode : Nat
  responseTime : Int
  timestamp : Int
deriving DecidableEq

/-- The `results` table as a list of rows. -/
abbrev Cache := List CacheRow

/-- The WHERE clause of `get_cached_result`:
`username=? AND site_name=? AND timestamp > ?` with the cutoff
`now - 24*3600`. -/
def cachePred (now : Int) (username siteName : String) (r : CacheRow) : Bool :=
  r.username == username && r.siteName == siteName
    && decide (now - 24 * 3600 < r.timestamp)

/-- `DatabaseManager.get_cached_result`: the first row matching the key
and still strictly inside the 24-hour staleness horizon, projected to the
result dictionary (the stored timestamp is not part of the returned
value). -/
def get_cached_result (db : Cache) (now : Int) (username siteName : String) :
    Option ProbeResult :=
  (db.find? (cachePred now username siteName)).map
    (fun row => ⟨siteName, row.url, row.status, row.httpCode, row.responseTime⟩)

/-- `DatabaseManager.save_result`: `INSERT OR REPLACE` keyed on
`(username, site_name)` — any prior row for the key is replaced, and the
write time is stamped as the row's `timestamp`. -/
def save_result (db : Cache) (writeTime : Int) (username : String)
    (result : ProbeResult) : Cache :=
  ⟨username, result.siteName, result.url, result.status,
   result.httpCode, result.responseTime, writeTime⟩ ::
    db.filter (fun r => !(r.username == username && r.siteName == result.siteName))

/-- Table well-formedness: the primary key `(username, site_name)` is
unique, so no two rows share both fields. -/
def CacheWf (db : Cache) : Prop :=
  db.Pairwise (fun a b => a.username ≠ b.username ∨ a.siteName ≠ b.siteName)

/-- The cache-or-probe partition loop of `run_scan`: each requested
platform goes to `cached_results` on a live cache hit and to
`sites_to_scan` otherwise, preserving the configuration order. -/
def splitSites (db : Cache) (now : Int) (username : String) :
    List (String × SiteData) → List ProbeResult × List (String × SiteData)
  | [] => ([], [])
  | (name, data) :: rest =>
    let r := splitSites db now username rest
    match get_cached_result db now username name with
    | some cached => (cached :: r.1, r.2)
    | none => (r.1, (name, data) :: r.2)

/-- `asyncio.gather` over the probe coroutines: all results when every
probe returns, the exception when any probe raises. -/
def gatherAll : List (Except String ProbeResult) → Except String (List ProbeResult)
  | [] => .ok []
  | x :: xs =>
    match x with
    | .error e => .error e
    | .ok r =>
      match gatherAll xs with
      | .error e => .error e
      | .ok rs => .ok (r :: rs)

/-- The probe batch launched for the to-probe platforms, with the network
environment `net` giving the outcome of each platform's single GET. -/
def freshProbes (username : String) (net : String → NetOutcome)
    (to_probe : List (String × SiteData)) : List (Except String ProbeResult) :=
  to_probe.map (fun p => scan_site username p.1 p.2 (net p.1))

/-- What `run_scan` reports and leaves behind: the cached group, the
freshly probed group, the loop counter `found_count`, the printed
`total_found` and `total_sites`, and the database after the per-result
saves. -/
structure ScanReport where
  cachedResults : List ProbeResult
  freshResults : List ProbeResult
  foundCount : Nat
  totalFound : Nat
  totalSites : Nat
  finalDb : Cache
deriving DecidableEq

/-- `run_scan`: partition against the cache, gather the probe batch (an
exception from any probe fails the whole scan), then persist each fresh
result and aggregate `found_count`,
`total_found = sum(1 for r in cached_results if r.status == "FOUND") + found_count`
and `total_sites = len(cached_results) + len(sites_to_scan)`. -/
def run_scan (username : String) (sites_config : List (String × SiteData))
    (db : Cache) (now writeTime : Int) (net : String → NetOutcome) :
    Except String ScanReport :=
  match gatherAll (freshProbes username net (splitSites db now username sites_config).2) with
  | .error e => .error e
  | .ok results =>
    .ok { cachedResults := (splitSites db now username sites_config).1
        , freshResults := results
        , foundCount :=
            results.foldl (fun n r => if r.status == "FOUND" then n + 1 else n) 0
        , totalFound :=
            (splitSites db now username sites_config).1.countP
                (fun r => r.status == "FOUND")
              + results.foldl (fun n r => if r.status == "FOUND" then n + 1 else n) 0
        , totalSites :=
            (splitSites db now username sites_config).1.length
              + (splitSites db now username sites_config).2.length
        , finalDb :=
            results.foldl (fun d r => save_result d writeTime username r) db }

/-- A one-platform configuration with a well-formed GitHub URL template,
used to instantiate the orchestrator theorems. -/
def exSites1 : List (String × SiteData) :=
  [("GitHub", ⟨some "https://github.com/\x7b\x7d"⟩)]

/-- A network environment answering every probe with a status-200 page
whose body carries a positive phrase. -/
def exNet1 : String → NetOutcome :=
  fun _ => .response ⟨200, "profile", none⟩ "https://github.com/alice" 1

/-- The report of the example scan of `exSites1` against an empty cache
(the fallback branch is unreachable: the scan succeeds). -/
def exRep1 : ScanReport :=
  match run_scan "alice" exSites1 [] 0 0 exNet1 with
  | .ok r => r
  | .error _ => ⟨[], [], 0, 0, 0, []⟩

/-- A single-row cache for the staleness-boundary analysis: the row was
observed at time 0. -/
def exRow1 : CacheRow :=
  ⟨"alice", "GitHub", "https://github.com/alice", "FOUND", 200, 1, 0⟩

/-! ## Helper lemmas -/

/-- The ERROR verdict string differs from FOUND. -/
theorem error_ne_found : "ERROR" ≠ "FOUND" := by decide

/-- The TIMEOUT verdict string differs from FOUND. -/
theorem timeout_ne_found : "TIMEOUT" ≠ "FOUND" := by decide

/-- The NOT FOUND verdict string differs from FOUND. -/
theorem notfound_ne_found : "NOT FOUND" ≠ "FOUND" := by decide

/-- The WHERE clause holds exactly when the key matches and the row is
strictly younger than 24 hours. -/
theorem cachePred_iff (now : Int) (u s : String) (r : CacheRow) :
    cachePred now u s r = true ↔
      r.username = u ∧ r.siteName = s ∧ now - r.timestamp < 24 * 3600 := by
  unfold cachePred
  simp only [Bool.and_eq_true, beq_iff_eq, decide_eq_true_eq, and_assoc]
  constructor
  · rintro ⟨h1, h2, h3⟩
    exact ⟨h1, h2, by omega⟩
  · rintro ⟨h1, h2, h3⟩
    exact ⟨h1, h2, by omega⟩

/-- Both classifier revisions demand status code 200 for a positive
verdict. -/
theorem classify_found_status (resp : Response) :
    (is_username_found resp = true → resp.status_code = 200) ∧
      (is_username_found_v1 resp = true → resp.status_code = 200) := by
  by_cases h : resp.status_code = 200
  · exact ⟨fun _ => h, fun _ => h⟩
  · constructor <;> intro hf
    · unfold is_username_found at hf
      rw [if_pos h] at hf
      exact Bool.noConfusion hf
    · unfold is_username_found_v1 at hf
      rw [if_pos h] at hf
      exact Bool.noConfusion hf

/-- A FOUND result of the parameterized probe has the response's status
code as its `httpCode`, and the classifier accepted that response. -/
theorem scan_siteWith_found_code (f : Response → Bool)
    (hf : ∀ resp, f resp = true → resp.status_code = 200)
    (u s : String) (d : SiteData) (net : NetOutcome) (r : ProbeResult)
    (h : scan_siteWith f u s d net = .ok r) (hs : r.status = "FOUND") :
    r.httpCode = 200 := by
  obtain ⟨url⟩ := d
  cases url with
  | none =>
    unfold scan_siteWith at h
    cases h
    exact absurd hs error_ne_found
  | some tmpl =>
    unfold scan_siteWith at h
    dsimp only at h
    by_cases ht : tmpl = ""
    · rw [if_pos ht] at h
      cases h
      exact absurd hs error_ne_found
    · rw [if_neg ht] at h
      cases hp : pyFormat1 tmpl u with
      | error e =>
        rw [hp] at h
        exact Except.noConfusion h
      | ok full_url =>
        rw [hp] at h
        cases net with
        | response resp finalUrl elapsed =>
          cases h
          cases hcl : f resp with
          | false =>
            rw [hcl] at hs
            exact absurd hs notfound_ne_found
          | true =>
            exact hf resp hcl
        | timeout elapsed =>
          cases h
          exact absurd hs timeout_ne_found
        | requestError elapsed =>
          cases h
          exact absurd hs error_ne_found

/-- The partition loop is exhaustive and exclusive in count: cached plus
to-probe platforms are exactly the requested platforms. -/
theorem splitSites_length (db : Cache) (now : Int) (u : String)
    (l : List (String × SiteData)) :
    (splitSites db now u l).1.length + (splitSites db now u l).2.length = l.length := by
  induction l with
  | nil => simp [splitSites]
  | cons p rest ih =>
    obtain ⟨name, data⟩ := p
    unfold splitSites
    cases hc : get_cached_result db now u name <;> simp [hc] <;> omega

/-- A successful gather returns one result per launched probe. -/
theorem gatherAll_ok_length (l : List (Except String ProbeResult))
    (rs : List ProbeResult) (h : gatherAll l = .ok rs) : rs.length = l.length := by
  induction l generalizing rs with
  | nil =>
    unfold gatherAll at h
    cases h
    rfl
  | cons x xs ih =>
    cases x with
    | error e =>
      unfold gatherAll at h
      exact Except.noConfusion h
    | ok r =>
      unfold gatherAll at h
      cases hg : gatherAll xs with
      | error e =>
        rw [hg] at h
        exact Except.noConfusion h
      | ok rs' =>
        rw [hg] at h
        cases h
        simp [ih rs' hg]

/-- The `found_count` accumulation loop counts the FOUND results. -/
theorem foldl_found_count (l : List ProbeResult) (n : Nat) :
    l.foldl (fun m r => if r.status == "FOUND" then m + 1 else m) n
      = n + l.countP (fun r => r.status == "FOUND") := by
  induction l generalizing n with
  | nil => simp
  | cons r rest ih =>
    rw [List.foldl_cons, ih, List.countP_cons]
    cases hr : (r.status == "FOUND") <;> simp [hr]
    all_goals omega

/-! ## Claims -/

/-- Claim C4: for every response with status code 200 whose lower-cased
body contains one of the negative phrases, both classifier revisions
return NOT_FOUND (`false`), regardless of any positive phrases also
present. -/
theorem c4_classifier_negative_priority (resp : Response)
    (h200 : resp.status_code = 200)
    (hneg : ∃ e ∈ error_indicators, strHas (lowerStr resp.text) e = true) :
    is_username_found resp = false ∧ is_username_found_v1 resp = false := by
  have hE : hasErrorIndicator (lowerStr resp.text) = true := by
    rcases hneg with ⟨e, he, hs⟩
    unfold hasErrorIndicator
    exact List.any_eq_true.mpr ⟨e, he, hs⟩
  constructor
  · unfold is_username_found
    rw [if_neg (by simp [h200]), if_pos hE]
  · unfold is_username_found_v1
    rw [if_neg (by simp [h200]), if_pos hE]

/-- Witness for C4: a 200 response whose body holds both the negative
phrase `"not found"` and the positive phrase `"profile"` classifies as
NOT_FOUND in both revisions. -/
theorem c4_witness :
    is_username_found ⟨200, "This profile was not found", some "Error"⟩ = false ∧
      is_username_found_v1 ⟨200, "This profile was not found", some "Error"⟩ = false :=
  c4_classifier_negative_priority ⟨200, "This profile was not found", some "Error"⟩ rfl
    ⟨"not found", by decide, by decide⟩

/-- Claim C5: every response whose status code is not 200 classifies as
NOT_FOUND (`false`) in both revisions, whatever the body and title. -/
theorem c5_classifier_status_gate (resp : Response)
    (h : resp.status_code ≠ 200) :
    is_username_found resp = false ∧ is_username_found_v1 resp = false := by
  constructor
  · unfold is_username_found
    rw [if_pos h]
  · unfold is_username_found_v1
    rw [if_pos h]

/-- Witness for C5: a 404 response stuffed with positive phrases still
classifies as NOT_FOUND in both revisions. -/
theorem c5_witness :
    is_username_found ⟨404, "profile followers 500", some "user profile"⟩ = false ∧
      is_username_found_v1 ⟨404, "profile followers 500", some "user profile"⟩ = false :=
  c5_classifier_status_gate ⟨404, "profile followers 500", some "user profile"⟩ (by decide)

/-- Claim C6: the two classifier revisions agree everywhere except on the
no-signal inputs (status 200, no negative phrase, no positive phrase, no
title signal), where the earliest revision answers FOUND and the later one
NOT_FOUND.  The two Boolean identities force exactly that: on a no-signal
response the first gives `v1 = true` and the second `v2 = false`, and off
the no-signal region they force `v1 = v2`. -/
theorem c6_revision_divergence (resp : Response) :
    is_username_found_v1 resp = (noSignalB resp || is_username_found resp) ∧
      is_username_found resp = (!noSignalB resp && is_username_found_v1 resp) := by
  unfold is_username_found is_username_found_v1 noSignalB
  by_cases h : resp.status_code = 200
  · simp only [h, ne_eq, not_true_eq_false, if_false, decide_True, Bool.true_and]
    cases hE : hasErrorIndicator (lowerStr resp.text) <;>
      cases hS : hasSuccessIndicator (lowerStr resp.text) <;>
        cases hT : titleHasSignal resp.title <;>
          simp [hE, hS, hT]
  · simp [h]

/-- Helper: the probe returns a value whenever its template is absent,
empty, or formats successfully (for whatever classifier). -/
theorem scan_siteWith_total (f : Response → Bool) (u s : String) (d : SiteData)
    (net : NetOutcome)
    (hfmt : ∀ t, d.url = some t → t ≠ "" → isOkE (pyFormat1 t u) = true) :
    isOkE (scan_siteWith f u s d net) = true := by
  obtain ⟨url⟩ := d
  cases url with
  | none => rfl
  | some tmpl =>
    by_cases ht : tmpl = ""
    · unfold scan_siteWith
      dsimp only
      rw [if_pos ht]
      rfl
    · have hok := hfmt tmpl rfl ht
      unfold scan_siteWith
      dsimp only
      rw [if_neg ht]
      cases hp : pyFormat1 tmpl u with
      | error e =>
        rw [hp] at hok
        simp [isOkE] at hok
      | ok full_url =>
        cases net <;> rfl

/-- Helper: any value the probe returns carries one of the four verdict
strings. -/
theorem scan_siteWith_verdicts (f : Response → Bool) (u s : String) (d : SiteData)
    (net : NetOutcome) (r : ProbeResult)
    (h : scan_siteWith f u s d net = .ok r) :
    r.status = "FOUND" ∨ r.status = "NOT FOUND" ∨
      r.status = "TIMEOUT" ∨ r.status = "ERROR" := by
  obtain ⟨url⟩ := d
  cases url with
  | none =>
    cases h
    exact .inr (.inr (.inr rfl))
  | some tmpl =>
    unfold scan_siteWith at h
    dsimp only at h
    by_cases ht : tmpl = ""
    · rw [if_pos ht] at h
      cases h
      exact .inr (.inr (.inr rfl))
    · rw [if_neg ht] at h
      cases hp : pyFormat1 tmpl u with
      | error e =>
        rw [hp] at h
        exact Except.noConfusion h
      | ok full_url =>
        rw [hp] at h
        cases net with
        | response resp finalUrl elapsed =>
          cases h
          cases hcl : f resp <;> simp [hcl]
        | timeout elapsed =>
          cases h
          exact .inr (.inr (.inl rfl))
        | requestError elapsed =>
          cases h
          exact .inr (.inr (.inr rfl))

/-- Claim C2, amended: for every configuration whose URL template is
absent, empty, or formats successfully, `scan_site` returns a
`ProbeResult` value carrying one of the four verdicts — the enumerated
failure paths (missing template, timeout, transport error) are values.
(The original universal claim fails: a present-but-malformed template is
formatted outside the `try` block and raises past the probe boundary, see
the counterexample.) -/
theorem c2_probe_failures_are_values (u s : String) (d : SiteData) (net : NetOutcome)
    (hfmt : ∀ t, d.url = some t → t ≠ "" → isOkE (pyFormat1 t u) = true) :
    isOkE (scan_site u s d net) = true ∧
      ∀ r, scan_site u s d net = .ok r →
        (r.status = "FOUND" ∨ r.status = "NOT FOUND" ∨
          r.status = "TIMEOUT" ∨ r.status = "ERROR") :=
  ⟨scan_siteWith_total is_username_found u s d net hfmt,
    fun r h => scan_siteWith_verdicts is_username_found u s d net r h⟩

/-- Witness for C2: a probe of a well-formed GitHub template that times
out still yields a value. -/
theorem c2_witness :
    isOkE (scan_site "dave" "GitHub" ⟨some "https://github.com/\x7b\x7d"⟩ (.timeout 3)) = true :=
  (c2_probe_failures_are_values "dave" "GitHub" ⟨some "https://github.com/\x7b\x7d"⟩
    (.timeout 3) (by intro t ht hne; cases ht; rfl)).1

/-- Counterexample to C2 as stated: with the malformed template
consisting of a single left brace, `str.format` raises a `ValueError`
outside the `try` block, so the probe does not return a `ProbeResult`. -/
theorem c2_counterexample :
    isOkE (scan_site "alice" "Site" ⟨some "\x7b"⟩ (.timeout 0)) = false := rfl

/-- Claim C3, amended: if the URL template is missing or empty (the falsy
guard of the source), the probe returns the immediate
ERROR/0/"N/A"/0 result, independently of the network behavior — hence no
network call is attempted.  (The original claim also covered "malformed"
templates, but a present-but-malformed template raises instead, see the
counterexample.) -/
theorem c3_falsy_template_immediate_error (u s : String) (d : SiteData)
    (net : NetOutcome) (h : d.url = none ∨ d.url = some "") :
    scan_site u s d net = .ok ⟨s, "N/A", "ERROR", 0, 0⟩ := by
  obtain ⟨url⟩ := d
  rcases h with h | h
  all_goals dsimp only at h
  all_goals subst h
  all_goals rfl

/-- Witness for C3: a platform entry with no `url` key yields the
immediate ERROR result. -/
theorem c3_witness :
    scan_site "alice" "MissingSite" ⟨none⟩ (.timeout 9) =
      .ok ⟨"MissingSite", "N/A", "ERROR", 0, 0⟩ :=
  c3_falsy_template_immediate_error "alice" "MissingSite" ⟨none⟩ (.timeout 9) (Or.inl rfl)

/-- Counterexample to C3 as stated: the malformed template consisting of
a single right brace is truthy, so the falsy guard passes and
`str.format` raises — the probe neither returns the ERROR result nor any
other value. -/
theorem c3_counterexample :
    isOkE (scan_site "carol" "BadSite" ⟨some "\x7d"⟩ (.requestError 0)) = false := rfl

/-- Claim C10: in both source revisions, any returned probe result with
verdict FOUND has `httpCode = 200`: the classifier only accepts status-200
responses and the probe copies the response's status code into the
result. -/
theorem c10_found_implies_200 (u s : String) (d : SiteData) (net : NetOutcome)
    (r : ProbeResult) :
    (scan_site u s d net = .ok r → r.status = "FOUND" → r.httpCode = 200) ∧
      (scan_site_v1 u s d net = .ok r → r.status = "FOUND" → r.httpCode = 200) :=
  ⟨fun h hs => scan_siteWith_found_code is_username_found
      (fun resp hf => (classify_found_status resp).1 hf) u s d net r h hs,
    fun h hs => scan_siteWith_found_code is_username_found_v1
      (fun resp hf => (classify_found_status resp).2 hf) u s d net r h hs⟩

/-- Witness for C10: a successful FOUND probe of the GitHub template
indeed reports `httpCode = 200`. -/
theorem c10_witness :
    (⟨"GitHub", "https://github.com/alice", "FOUND", 200, 1⟩ : ProbeResult).httpCode = 200 :=
  (c10_found_implies_200 "alice" "GitHub" ⟨some "https://github.com/\x7b\x7d"⟩
      (.response ⟨200, "profile", none⟩ "https://github.com/alice" 1)
      ⟨"GitHub", "https://github.com/alice", "FOUND", 200, 1⟩).1 rfl rfl

/-- Claim C7, amended: over a table whose primary key is unique, the
lookup returns a cached view exactly when a row with the queried key
exists whose observed-at timestamp is **strictly** less than 24 hours old
at lookup time (`timestamp > now - 24*3600`); otherwise it reports
absent, even when an expired row still physically exists.  (The original
claim's "at most 24 hours" fails at the exact boundary, see the
counterexample.) -/
theorem c7_cache_strict_staleness (db : Cache) (now : Int) (u s : String)
    (hwf : CacheWf db) (v : ProbeResult) :
    get_cached_result db now u s = some v ↔
      ∃ row, row ∈ db ∧ row.username = u ∧ row.siteName = s ∧
        now - row.timestamp < 24 * 3600 ∧
        v = ⟨s, row.url, row.status, row.httpCode, row.responseTime⟩ := by
  have hpw : List.Pairwise
      (fun a b : CacheRow => a.username ≠ b.username ∨ a.siteName ≠ b.siteName) db := hwf
  unfold get_cached_result
  rw [Option.map_eq_some']
  constructor
  · rintro ⟨row, hf, hv⟩
    have hm := List.mem_of_find?_eq_some hf
    have hp := List.find?_some hf
    obtain ⟨h1, h2, h3⟩ := (cachePred_iff now u s row).mp hp
    exact ⟨row, hm, h1, h2, h3, hv.symm⟩
  · rintro ⟨row, hm, h1, h2, h3, hv⟩
    have hps : (db.find? (cachePred now u s)).isSome := by
      rw [List.find?_isSome]
      exact ⟨row, hm, (cachePred_iff now u s row).mpr ⟨h1, h2, h3⟩⟩
    obtain ⟨row', hf⟩ := Option.isSome_iff_exists.mp hps
    have hm' := List.mem_of_find?_eq_some hf
    obtain ⟨h1', h2', _⟩ := (cachePred_iff now u s row').mp (List.find?_some hf)
    have hsym : Symmetric
        (fun a b : CacheRow => a.username ≠ b.username ∨ a.siteName ≠ b.siteName) :=
      fun a b hab => hab.imp Ne.symm Ne.symm
    have heq : row' = row := by
      by_contra hne
      cases hpw.forall hsym hm' hm hne with
      | inl hu => exact hu (h1'.trans h1.symm)
      | inr hs2 => exact hs2 (h2'.trans h2.symm)
    subst heq
    exact ⟨row', hf, hv.symm⟩

/-- Witness for C7: a 100-second-old row is served back as a cache hit. -/
theorem c7_witness :
    get_cached_result [exRow1] 100 "alice" "GitHub" =
      some ⟨"GitHub", "https://github.com/alice", "FOUND", 200, 1⟩ :=
  (c7_cache_strict_staleness [exRow1] 100 "alice" "GitHub"
      (List.pairwise_singleton _ _) _).mpr
    ⟨exRow1, List.Mem.head _, rfl, rfl, by decide, rfl⟩

/-- Counterexample to C7 as stated: at lookup time exactly 24 hours after
the row was observed, the elapsed time is *at most* 24 hours, the row
physically exists with the queried key, yet the lookup reports absent
(the SQL predicate `timestamp > now - 24*3600` is strict). -/
theorem c7_counterexample :
    get_cached_result [exRow1] 86400 "alice" "GitHub" = none ∧
      exRow1 ∈ [exRow1] ∧ exRow1.username = "alice" ∧ exRow1.siteName = "GitHub" ∧
      (86400 : Int) - exRow1.timestamp ≤ 24 * 3600 :=
  ⟨rfl, List.Mem.head _, rfl, rfl, by decide⟩

/-- Claim C8: upserting a probe result and then looking the pair up while
the write is still inside the staleness horizon returns a view with the
same status, url, httpCode and responseTime; the stamped timestamp is
internal and does not appear in the returned value. -/
theorem c8_cache_round_trip (db : Cache) (now writeTime : Int) (u : String)
    (res : ProbeResult) (hfresh : now - writeTime < 24 * 3600) :
    get_cached_result (save_result db writeTime u res) now u res.siteName =
      some ⟨res.siteName, res.url, res.status, res.httpCode, res.responseTime⟩ := by
  unfold get_cached_result save_result
  rw [List.find?_cons_of_pos]
  · rfl
  · refine (cachePred_iff now u res.siteName _).mpr ⟨rfl, rfl, ?_⟩
    show now - writeTime < 24 * 3600
    omega

/-- Witness for C8: a concrete write at time 50 read back at time 100. -/
theorem c8_witness :
    get_cached_result
        (save_result [] 50 "alice" ⟨"GitHub", "https://github.com/alice", "FOUND", 200, 2⟩)
        100 "alice" "GitHub" =
      some ⟨"GitHub", "https://github.com/alice", "FOUND", 200, 2⟩ :=
  c8_cache_round_trip [] 100 50 "alice"
    ⟨"GitHub", "https://github.com/alice", "FOUND", 200, 2⟩ (by decide)

/-- Claim C1, amended: whenever the scan completes (no probe raises — in
particular every present, non-empty template formats without error), it
yields exactly one ProbeResult per requested platform: the cached group
and the freshly probed group together have exactly as many entries as the
requested configuration, each platform being served by exactly one of the
two groups of the partition.  (The original universal claim fails when a
malformed template makes the probe batch raise, see the
counterexample.) -/
theorem c1_one_result_per_platform (u : String) (sites : List (String × SiteData))
    (db : Cache) (now wt : Int) (net : String → NetOutcome) (rep : ScanReport)
    (h : run_scan u sites db now wt net = .ok rep) :
    rep.cachedResults.length + rep.freshResults.length = sites.length := by
  unfold run_scan at h
  cases hg : gatherAll (freshProbes u net (splitSites db now u sites).2) with
  | error e =>
    rw [hg] at h
    exact Except.noConfusion h
  | ok results =>
    rw [hg] at h
    cases h
    have h1 := splitSites_length db now u sites
    have h2 := gatherAll_ok_length _ _ hg
    have h3 : (freshProbes u net (splitSites db now u sites).2).length
        = (splitSites db now u sites).2.length := by
      simp [freshProbes]
    dsimp only
    omega

/-- Witness for C1: the example one-platform scan produces exactly one
result. -/
theorem c1_witness :
    exRep1.cachedResults.length + exRep1.freshResults.length = exSites1.length :=
  c1_one_result_per_platform "alice" exSites1 [] 0 0 exNet1 exRep1 rfl

/-- Counterexample to C1 as stated: with the malformed template
consisting of a single left brace and an empty cache, the probe raises,
`asyncio.gather` propagates the exception and the scan yields no results
at all for its one requested platform. -/
theorem c1_counterexample :
    isOkE (run_scan "alice" [("BrokenSite", ⟨some "\x7b"⟩)] [] 0 0 (fun _ => .timeout 0))
      = false := rfl

/-- Claim C9: in a completed scan, the reported total platform count is
the number of cached results plus the number of freshly probed platforms,
and the reported found count is the number of results whose verdict
string is exactly `"FOUND"` across both groups — TIMEOUT and ERROR
results are counted in the total but never as found. -/
theorem c9_summary_aggregation (u : String) (sites : List (String × SiteData))
    (db : Cache) (now wt : Int) (net : String → NetOutcome) (rep : ScanReport)
    (h : run_scan u sites db now wt net = .ok rep) :
    rep.totalSites = rep.cachedResults.length + rep.freshResults.length ∧
      rep.totalFound = (rep.cachedResults ++ rep.freshResults).countP
        (fun r => r.status == "FOUND") := by
  unfold run_scan at h
  cases hg : gatherAll (freshProbes u net (splitSites db now u sites).2) with
  | error e =>
    rw [hg] at h
    exact Except.noConfusion h
  | ok results =>
    rw [hg] at h
    cases h
    have h2 := gatherAll_ok_length _ _ hg
    have h3 : (freshProbes u net (splitSites db now u sites).2).length
        = (splitSites db now u sites).2.length := by
      simp [freshProbes]
    constructor
    · dsimp only
      omega
    · dsimp only
      rw [List.countP_append, foldl_found_count]
      omega

/-- Witness for C9: the example one-platform scan reports total 1 and
found 1, matching the groups. -/
theorem c9_witness :
    exRep1.totalSites = exRep1.cachedResults.length + exRep1.freshResults.length ∧
      exRep1.totalFound = (exRep1.cachedResults ++ exRep1.freshResults).countP
        (fun r => r.status == "FOUND") :=
  c9_summary_aggregation "alice" exSites1 [] 0 0 exNet1 exRep1 rfl
